import Mathlib

/-!
Shallow embedding of `src/app/routes/index.tsx` from the bf-caseforge-ui
repository: the server-side `action` request handler and the stateful logic
of the `IndexPage` chat view (transcript updates, session-id tracking,
navigation-state handling, form submission and the auto-growing textarea).

JavaScript optional values (`string | undefined`, optional fields) are
modelled as `Option String` / `Option Bool`; JavaScript truthiness of a
string-valued expression (`undefined`, `null` and `""` are falsy) is the
`truthy` predicate below.  Machine numbers that the code treats as integers
(`parseInt` results, `scrollHeight`) are embedded as `Nat` inputs, with the
arithmetic done in `Int` so that `Math.floor` of a possibly negative quotient
is `Int.fdiv`.
-/

/-- JavaScript truthiness of an optional string: `undefined`/`null` and the
empty string are falsy, every other string is truthy. -/
def truthy : Option String → Bool
  | none => false
  | some s => !(s == "")

/-- `role: "user" | "assistant"` from `ChatHistoryProps`. -/
inductive Role where
  | user
  | assistant
deriving DecidableEq, Repr

/-- `ChatHistoryProps` (index.tsx lines 29-33): one transcript turn.
`error?: boolean` is optional, hence `Option Bool`. -/
structure ChatHistoryProps where
  content : String
  role : Role
  error : Option Bool
deriving DecidableEq, Repr

/-- `ReturnedDataProps` (index.tsx lines 22-27): the normalized result of one
`action` invocation.  `answer` is declared `string` in TypeScript but on the
success path the code passes `response.output?.text` through an unchecked
cast, so at runtime it can be `undefined`; it is therefore embedded as
`Option String` like the other optional fields. -/
structure ReturnedDataProps where
  message : Option String
  answer : Option String
  error : Option String
  sessionId : Option String
deriving DecidableEq, Repr

/-- The fields of the external service reply that the handler reads
(index.tsx lines 88-89): `response.output?.text` and `response.sessionId`. -/
structure ServiceResponse where
  outputText : Option String
  sessionId : Option String
deriving DecidableEq, Repr

/-- Outcome of `client.send(command)` inside the `try` block: either a reply,
or a thrown error whose `.message` property is the given optional string
(`none` models a thrown value without a string `message`). -/
inductive ServiceOutcome where
  | ok : ServiceResponse → ServiceOutcome
  | thrown : Option String → ServiceOutcome
deriving DecidableEq, Repr

/-- `promptTemplate` object (index.tsx lines 66-69). -/
structure PromptTemplate where
  textPromptTemplate : String
deriving DecidableEq, Repr

/-- `textInferenceConfig` object (index.tsx lines 71-76). -/
structure TextInferenceConfig where
  temperature : Nat
  topP : Nat
  maxTokens : Nat
  stopSequences : List String
deriving DecidableEq, Repr

/-- `inferenceConfig` object (index.tsx lines 70-77). -/
structure InferenceConfig where
  textInferenceConfig : TextInferenceConfig
deriving DecidableEq, Repr

/-- `generationConfiguration` object (index.tsx lines 65-78). -/
structure GenerationConfiguration where
  promptTemplate : PromptTemplate
  inferenceConfig : InferenceConfig
deriving DecidableEq, Repr

/-- `vectorSearchConfiguration` object (index.tsx lines 61-63). -/
structure VectorSearchConfiguration where
  numberOfResults : Nat
deriving DecidableEq, Repr

/-- `retrievalConfiguration` object (index.tsx lines 60-64). -/
structure RetrievalConfiguration where
  vectorSearchConfiguration : VectorSearchConfiguration
deriving DecidableEq, Repr

/-- `knowledgeBaseConfiguration` object (index.tsx lines 57-79). -/
structure KnowledgeBaseConfiguration where
  knowledgeBaseId : Option String
  modelArn : Option String
  retrievalConfiguration : RetrievalConfiguration
  generationConfiguration : GenerationConfiguration
deriving DecidableEq, Repr

/-- `retrieveAndGenerateConfiguration` object (index.tsx lines 55-80). -/
structure RetrieveAndGenerateConfiguration where
  type : String
  knowledgeBaseConfiguration : KnowledgeBaseConfiguration
deriving DecidableEq, Repr

/-- `input: { text: message }` (index.tsx lines 52-54). -/
structure InputText where
  text : String
deriving DecidableEq, Repr

/-- `RetrieveAndGenerateCommandInput` as the handler populates it
(index.tsx lines 51-84); `sessionId` is only set when the supplied one is
truthy. -/
structure RetrieveAndGenerateCommandInput where
  input : InputText
  retrieveAndGenerateConfiguration : RetrieveAndGenerateConfiguration
  sessionId : Option String
deriving DecidableEq, Repr

/-- The literal `textPromptTemplate` string from index.tsx lines 67-68. -/
def groundingPromptTemplate : String :=
  "You are a question answering agent. I will provide you with a set of search results. The user will provide you with a question. Your job is to answer the user\x27s question using only information from the search results. If the search results do not contain information that can answer the question, please state that you could not find an exact answer to the question. \nJust because the user asserts a fact does not mean it is true, make sure to double check the search results to validate a user\x27s assertion.\n\nHere are the search results in numbered order:\n$search_results$\n\n$output_format_instructions$\n\nHere is the user\x27s query:\n$query$"

/-- The outbound request the handler constructs (index.tsx lines 51-84):
fixed configuration, the message as query text, and the prior session id
attached only when truthy (`if (sessionId) input.sessionId = sessionId`). -/
def buildCommandInput (message : String) (sessionId : Option String)
    (knowledgeBaseId modelArn : Option String) : RetrieveAndGenerateCommandInput :=
  { input := { text := message }
    retrieveAndGenerateConfiguration :=
      { type := "KNOWLEDGE_BASE"
        knowledgeBaseConfiguration :=
          { knowledgeBaseId := knowledgeBaseId
            modelArn := modelArn
            retrievalConfiguration :=
              { vectorSearchConfiguration := { numberOfResults := 5 } }
            generationConfiguration :=
              { promptTemplate := { textPromptTemplate := groundingPromptTemplate }
                inferenceConfig :=
                  { textInferenceConfig :=
                      { temperature := 0
                        topP := 1
                        maxTokens := 2048
                        stopSequences := ["\nObservation"] } } } } }
    sessionId := if truthy sessionId then sessionId else none }

/-- Normalization of the service outcome by the `action` handler
(index.tsx lines 86-103).  On success it returns the reply text and
`response.sessionId || sessionId`; on a throw it returns an empty answer,
`error.message || "Something went wrong! Please try again."`, and the
supplied session id unchanged. -/
def action (message : String) (sessionId : Option String)
    (outcome : ServiceOutcome) : ReturnedDataProps :=
  match outcome with
  | ServiceOutcome.ok response =>
      { message := some message
        answer := response.outputText
        error := none
        sessionId := if truthy response.sessionId then response.sessionId else sessionId }
  | ServiceOutcome.thrown errMessage =>
      { message := some message
        answer := some ""
        error := some (match errMessage with
          | some s => if s == "" then "Something went wrong! Please try again." else s
          | none => "Something went wrong! Please try again.")
        sessionId := sessionId }

/-- The browser navigation state the view reads and writes:
`location.state?.chatHistory`.  The view never stores any other field, so the
`{...location.state}` spread contributes nothing further. -/
structure LocationState where
  chatHistory : Option (List ChatHistoryProps)
deriving DecidableEq, Repr

/-- Client-side state of `IndexPage` relevant to the transcript claims: the
in-memory `chatHistory` React state and the browser navigation state. -/
structure ClientState where
  chatHistory : List ChatHistoryProps
  navState : Option LocationState
deriving DecidableEq, Repr

/-- The effect of index.tsx lines 271-298 when `data` comes back from the
action: a truthy `data.error` pushes one error-flagged assistant turn and
returns early (navigation state untouched); otherwise a truthy `data.answer`
pushes one assistant turn and navigates with
`{...location.state, chatHistory: [...chatHistory, newAnswer]}`; otherwise
nothing happens. -/
def processActionData (st : ClientState) (data : ReturnedDataProps) : ClientState :=
  if truthy data.error then
    { st with chatHistory := st.chatHistory ++
        [{ content := data.error.getD "", role := Role.assistant, error := some true }] }
  else if truthy data.answer then
    let newAnswer : ChatHistoryProps :=
      { content := data.answer.getD "", role := Role.assistant, error := none }
    { chatHistory := st.chatHistory ++ [newAnswer]
      navState := some { chatHistory := some (st.chatHistory ++ [newAnswer]) } }
  else st

/-- The session-id effect (index.tsx lines 330-334): replace the stored id
only when `data?.sessionId` is truthy and differs (`!==`) from the stored
one.  The stored id is `string | null`, embedded as `Option String`. -/
def updateSessionId (stored dataSessionId : Option String) : Option String :=
  if truthy dataSessionId = true ∧ dataSessionId ≠ stored then dataSessionId else stored

/-- `saveUserMessage`/`pushChatHistory` (index.tsx lines 163-179): append a
user-role turn with the given content (no `error` field). -/
def saveUserMessage (content : String) (chat : List ChatHistoryProps) :
    List ChatHistoryProps :=
  chat ++ [{ content := content, role := Role.user, error := none }]

/-- `handleFormSubmit` (index.tsx lines 185-190): on form submission the
message read from the form data is appended as a user turn. -/
def handleFormSubmit (message : String) (chat : List ChatHistoryProps) :
    List ChatHistoryProps :=
  saveUserMessage message chat

/-- JavaScript `String.prototype.trim`: strip whitespace from both ends,
written structurally over the character list so it evaluates by `decide`. -/
def jsTrim (s : String) : String :=
  String.mk (((s.data.dropWhile Char.isWhitespace).reverse.dropWhile Char.isWhitespace).reverse)

/-- `submitFormOnEnter` (index.tsx lines 198-208): on Enter without Shift
with trimmed length > 2, append the user turn and submit the form; the
returned flag records whether the form was submitted. -/
def submitFormOnEnter (key : String) (shiftKey : Bool) (value : String)
    (chat : List ChatHistoryProps) : List ChatHistoryProps × Bool :=
  if key = "Enter" ∧ shiftKey = false ∧ 2 < (jsTrim value).length then
    (saveUserMessage value chat, true)
  else (chat, false)

/-- The state of the textarea element that the submission-lifecycle effect touches. -/
structure InputBox where
  value : String
  rows : Int
deriving DecidableEq, Repr

/-- The effect of index.tsx lines 254-265: while the navigation state is
`"submitting"` the input is cleared and reset to one row; otherwise the
input is only focused and left unchanged. -/
def clearInputOnSubmit (navigationState : String) (input : InputBox) : InputBox :=
  if navigationState = "submitting" then { value := "", rows := 1 } else input

/-- The transcript the view displays after loading with the given navigation
state, combining the initial `useState([])`, the clearing effect
(index.tsx lines 303-308, runs when `location.state` is absent) and
`setChat` (index.tsx lines 243-248, runs when `location.state?.chatHistory`
is present; a JavaScript array is truthy even when empty). -/
def loadView (state : Option LocationState) : List ChatHistoryProps :=
  match state with
  | none => []
  | some s =>
    match s.chatHistory with
    | some h => h
    | none => []

/-- `minTextareaRows` (index.tsx line 107). -/
def minTextareaRows : Int := 1

/-- `maxTextareaRows` (index.tsx line 108). -/
def maxTextareaRows : Int := 3

/-- `handleTextareaChange` (index.tsx lines 128-157): the row count assigned
to the textarea, from the measured `scrollHeight` and the parsed
`line-height`/`padding-top`/`padding-bottom` styles (all non-negative
integers): `Math.floor((scrollHeight - paddingTop - paddingBottom) / lineHeight)`,
replaced by `maxTextareaRows` when it reaches it. -/
def handleTextareaChange (scrollHeight paddingTop paddingBottom lineHeight : Nat) : Int :=
  let contentHeight : Int := (scrollHeight : Int) - (paddingTop : Int) - (paddingBottom : Int)
  let currentRows : Int := Int.fdiv contentHeight (lineHeight : Int)
  if maxTextareaRows ≤ currentRows then maxTextareaRows else currentRows

/-! ## Theorems about the claims -/

/-- Claim C1, counterexample: a handler result with no error field but an
empty answer string appends no assistant turn at all, because the view
checks `data?.answer` for truthiness before pushing the turn. -/
theorem c1_empty_answer_counterexample :
    (⟨none, some "", none, none⟩ : ReturnedDataProps).error = none ∧
    (processActionData ⟨[], none⟩ ⟨none, some "", none, none⟩).chatHistory = [] :=
  ⟨rfl, rfl⟩

/-- Claim C1 (amended): for a handler result with no error field, the chat
view appends exactly one assistant turn whose content equals the returned
answer when that answer is truthy (non-empty); when the answer is the empty
string (or absent) it appends no turn and leaves the state unchanged. -/
theorem c1_no_error_appends_answer_turn (st : ClientState) (data : ReturnedDataProps)
    (herr : data.error = none) :
    (truthy data.answer = true →
      (processActionData st data).chatHistory = st.chatHistory ++
        [{ content := data.answer.getD "", role := Role.assistant, error := none }]) ∧
    (truthy data.answer = false → processActionData st data = st) := by
  constructor
  · intro ha
    unfold processActionData
    rw [herr]
    simp [ha, show truthy none = false from rfl]
  · intro ha
    unfold processActionData
    rw [herr]
    simp [ha, show truthy none = false from rfl]

/-- Claim C1 witness: a successful result with answer `"Six years."` appends
exactly that assistant turn to an empty transcript. -/
theorem c1_no_error_appends_answer_turn_witness :
    (processActionData ⟨[], none⟩ ⟨none, some "Six years.", none, none⟩).chatHistory =
      [{ content := "Six years.", role := Role.assistant, error := none }] := by
  have h := (c1_no_error_appends_answer_turn ⟨[], none⟩
    ⟨none, some "Six years.", none, none⟩ rfl).1 (by decide)
  simpa using h

/-- Claim C2: a handler result whose error field is a non-empty string makes
the view append exactly one assistant turn, error-flagged, whose content is
the error message, and nothing else changes (in particular no other turn is
appended and the navigation state is untouched). -/
theorem c2_error_appends_error_turn (st : ClientState) (data : ReturnedDataProps)
    (e : String) (he : data.error = some e) (hne : e ≠ "") :
    processActionData st data =
      { st with chatHistory := st.chatHistory ++
          [{ content := e, role := Role.assistant, error := some true }] } := by
  unfold processActionData
  rw [he]
  simp [truthy, hne]

/-- Claim C2 witness: an error result with message `"boom"` appends exactly
one error-flagged assistant turn. -/
theorem c2_error_appends_error_turn_witness :
    processActionData ⟨[], none⟩ ⟨none, some "", some "boom", none⟩ =
      ⟨[{ content := "boom", role := Role.assistant, error := some true }], none⟩ := by
  have h := c2_error_appends_error_turn ⟨[], none⟩
    ⟨none, some "", some "boom", none⟩ "boom" rfl (by decide)
  simpa using h

/-- Claim C3: on a thrown external call the returned sessionId is the
supplied one unchanged; on success it is the service session id when the
service supplies a truthy one and the supplied one otherwise; and the view
replaces its stored session id only when the result carries a truthy session
id different from the stored one (and then stores exactly that id). -/
theorem c3_session_id_handling :
    (∀ (m : String) (sid e : Option String),
      (action m sid (ServiceOutcome.thrown e)).sessionId = sid) ∧
    (∀ (m : String) (sid : Option String) (r : ServiceResponse),
      (truthy r.sessionId = true →
        (action m sid (ServiceOutcome.ok r)).sessionId = r.sessionId) ∧
      (truthy r.sessionId = false →
        (action m sid (ServiceOutcome.ok r)).sessionId = sid)) ∧
    (∀ stored dataSessionId : Option String,
      updateSessionId stored dataSessionId ≠ stored →
        truthy dataSessionId = true ∧ dataSessionId ≠ stored ∧
          updateSessionId stored dataSessionId = dataSessionId) := by
  refine ⟨fun m sid e => rfl, fun m sid r => ⟨fun h => ?_, fun h => ?_⟩,
    fun stored dataSessionId hch => ?_⟩
  · simp [action, h]
  · simp [action, h]
  · unfold updateSessionId at hch ⊢
    by_cases hc : truthy dataSessionId = true ∧ dataSessionId ≠ stored
    · simp [hc]
    · simp [hc] at hch

/-- Claim C3 witness: a fresh session id `"abc123"` coming back while no id
is stored replaces the stored (null) session id. -/
theorem c3_session_id_handling_witness :
    truthy (some "abc123") = true ∧ (some "abc123" : Option String) ≠ none ∧
      updateSessionId none (some "abc123") = some "abc123" :=
  c3_session_id_handling.2.2 none (some "abc123") (by decide)

/-- Claim C4: for a submission whose trimmed message length exceeds 2, both
submission paths (Enter without Shift, and the form submit handler run on a
click) append one user-role turn carrying the submitted message — the append
happens at submission time, before any handler result is processed — and the
submitting phase of the navigation lifecycle then clears the input. -/
theorem c4_submission_appends_user_turn (message v : String) (rows : Int)
    (chat : List ChatHistoryProps) (h : 2 < (jsTrim message).length) :
    submitFormOnEnter "Enter" false message chat =
      (chat ++ [{ content := message, role := Role.user, error := none }], true) ∧
    handleFormSubmit message chat =
      chat ++ [{ content := message, role := Role.user, error := none }] ∧
    clearInputOnSubmit "submitting" { value := v, rows := rows } =
      { value := "", rows := 1 } := by
  refine ⟨?_, rfl, rfl⟩
  simp [submitFormOnEnter, h, saveUserMessage]

/-- Claim C4 witness: the example query, trimmed, is longer than 2, and the
Enter path appends it as a user turn and submits. -/
theorem c4_submission_appends_user_turn_witness :
    submitFormOnEnter "Enter" false "What is the statute of limitations?" [] =
      ([{ content := "What is the statute of limitations?", role := Role.user,
          error := none }], true) :=
  (c4_submission_appends_user_turn "What is the statute of limitations?" "" 1 []
    (by decide)).1

/-- Claim C5: every request the handler constructs has temperature 0,
topP 1, maxTokens 2048, exactly one stop sequence, the fixed grounding
prompt template, 5 retrieved passages, and carries the prior session id
exactly when a truthy one was supplied (and then carries that id). -/
theorem c5_fixed_request_configuration (m : String) (sid kb ma : Option String) :
    (buildCommandInput m sid kb ma).retrieveAndGenerateConfiguration.knowledgeBaseConfiguration.generationConfiguration.inferenceConfig.textInferenceConfig.temperature = 0 ∧
    (buildCommandInput m sid kb ma).retrieveAndGenerateConfiguration.knowledgeBaseConfiguration.generationConfiguration.inferenceConfig.textInferenceConfig.topP = 1 ∧
    (buildCommandInput m sid kb ma).retrieveAndGenerateConfiguration.knowledgeBaseConfiguration.generationConfiguration.inferenceConfig.textInferenceConfig.maxTokens = 2048 ∧
    (buildCommandInput m sid kb ma).retrieveAndGenerateConfiguration.knowledgeBaseConfiguration.generationConfiguration.inferenceConfig.textInferenceConfig.stopSequences.length = 1 ∧
    (buildCommandInput m sid kb ma).retrieveAndGenerateConfiguration.knowledgeBaseConfiguration.generationConfiguration.promptTemplate.textPromptTemplate = groundingPromptTemplate ∧
    (buildCommandInput m sid kb ma).retrieveAndGenerateConfiguration.knowledgeBaseConfiguration.retrievalConfiguration.vectorSearchConfiguration.numberOfResults = 5 ∧
    (buildCommandInput m sid kb ma).input.text = m ∧
    (buildCommandInput m sid kb ma).sessionId.isSome = truthy sid ∧
    (truthy sid = true → (buildCommandInput m sid kb ma).sessionId = sid) := by
  refine ⟨rfl, rfl, rfl, rfl, rfl, rfl, rfl, ?_, ?_⟩
  · by_cases h : truthy sid = true
    · cases sid with
      | none => simp [truthy] at h
      | some s => simp [buildCommandInput, h]
    · simp [buildCommandInput, h]
  · intro h
    simp [buildCommandInput, h]

/-- Claim C5 witness: with session id `"abc123"` supplied, the constructed
request carries it. -/
theorem c5_fixed_request_configuration_witness :
    (buildCommandInput "q" (some "abc123") none none).sessionId = some "abc123" :=
  (c5_fixed_request_configuration "q" (some "abc123") none none).2.2.2.2.2.2.2.2
    (by decide)

/-- Claim C6: loading the view with navigation state that contains a prior
transcript displays exactly that transcript, every turn and its order
preserved. -/
theorem c6_nav_state_restores_transcript (h : List ChatHistoryProps) :
    loadView (some { chatHistory := some h }) = h := rfl

/-- Claim C7: loading the view with no navigation state present displays the
empty transcript. -/
theorem c7_no_state_gives_empty_transcript : loadView none = [] := rfl

/-- Claim C8, counterexample: with a measured scroll height of 10, no
padding and a line height of 24 — a content height smaller than one line —
the handler assigns `Math.floor(10 / 24) = 0` rows, below the claimed lower
bound of 1. -/
theorem c8_rows_lower_bound_counterexample :
    ¬ (1 ≤ handleTextareaChange 10 0 0 24 ∧ handleTextareaChange 10 0 0 24 ≤ 3) := by
  decide

/-- Claim C8 (amended): the assigned row count never exceeds 3 (for a
positive parsed line height), and it lies between 1 and 3 inclusive whenever
the measured content height (scroll height minus vertical padding) is at
least one line height; below one line height the handler assigns 0 rows
instead of clamping at the minimum of 1. -/
theorem c8_rows_bounds (sh pt pb lh : Nat) (hl : 0 < lh) :
    handleTextareaChange sh pt pb lh ≤ 3 ∧
    ((lh : Int) ≤ (sh : Int) - (pt : Int) - (pb : Int) →
      1 ≤ handleTextareaChange sh pt pb lh ∧ handleTextareaChange sh pt pb lh ≤ 3) := by
  have hl' : (0 : Int) < (lh : Int) := by exact_mod_cast hl
  have hrows : handleTextareaChange sh pt pb lh =
      if (3 : Int) ≤ Int.fdiv ((sh : Int) - (pt : Int) - (pb : Int)) (lh : Int) then 3
      else Int.fdiv ((sh : Int) - (pt : Int) - (pb : Int)) (lh : Int) := rfl
  constructor
  · rw [hrows]
    split
    · exact le_refl 3
    · omega
  · intro hc
    have h1 : 1 ≤ Int.fdiv ((sh : Int) - (pt : Int) - (pb : Int)) (lh : Int) := by
      rw [Int.fdiv_eq_ediv _ (le_of_lt hl')]
      calc (1 : Int) = (lh : Int) / (lh : Int) := (Int.ediv_self (ne_of_gt hl')).symm
        _ ≤ ((sh : Int) - (pt : Int) - (pb : Int)) / (lh : Int) := Int.ediv_le_ediv hl' hc
    rw [hrows]
    constructor
    · split
      · omega
      · exact h1
    · split
      · exact le_refl 3
      · omega

/-- Claim C8 witness: a textarea measuring 100 pixels of scroll height with
10-pixel paddings and a 20-pixel line height gets 3 rows, inside the bounds. -/
theorem c8_rows_bounds_witness :
    1 ≤ handleTextareaChange 100 10 10 20 ∧ handleTextareaChange 100 10 10 20 ≤ 3 :=
  (c8_rows_bounds 100 10 10 20 (by decide)).2 (by decide)

/-- Claim C9, counterexample: after an error result (which leaves navigation
state untouched) a later successful result writes the whole in-memory
transcript — error turn included — into navigation state, so a restored
transcript can contain an error-flagged turn. -/
theorem c9_error_turn_reaches_nav_state_counterexample :
    (processActionData (processActionData ⟨[], none⟩ ⟨none, some "", some "boom", none⟩)
        ⟨none, some "ok", none, none⟩).navState =
      some { chatHistory := some [⟨"boom", Role.assistant, some true⟩,
        ⟨"ok", Role.assistant, none⟩] } ∧
    (⟨"boom", Role.assistant, some true⟩ : ChatHistoryProps).error = some true :=
  ⟨rfl, rfl⟩

/-- Claim C9 (amended): navigation state is written only when a handler
result succeeds (truthy answer, no truthy error) — an error result leaves it
unchanged — but the state written on success is the entire current
transcript plus the new answer, so error-flagged turns appended by earlier
failed results are carried into navigation state as well. -/
theorem c9_nav_state_written_only_on_success (st : ClientState) (data : ReturnedDataProps) :
    (truthy data.error = true → (processActionData st data).navState = st.navState) ∧
    ((processActionData st data).navState ≠ st.navState →
      truthy data.error = false ∧ truthy data.answer = true ∧
      (processActionData st data).navState =
        some { chatHistory := some (processActionData st data).chatHistory }) := by
  constructor
  · intro he
    unfold processActionData
    simp [he]
  · intro hch
    unfold processActionData at hch ⊢
    by_cases he : truthy data.error = true
    · simp [he] at hch
    · by_cases ha : truthy data.answer = true
      · simp only [Bool.not_eq_true] at he
        simp [he, ha]
      · simp only [Bool.not_eq_true] at he ha
        simp [he, ha] at hch

/-- Claim C9 witness: an error result leaves the (empty) navigation state
unchanged. -/
theorem c9_nav_state_written_only_on_success_witness :
    (processActionData ⟨[], none⟩ ⟨none, some "", some "boom", none⟩).navState = none :=
  (c9_nav_state_written_only_on_success ⟨[], none⟩
    ⟨none, some "", some "boom", none⟩).1 (by decide)

/-- Claim C10: when the external call throws, the handler returns an empty
answer string, echoes the submitted message, and sets the error field to the
thrown message when that is a non-empty string and to the fixed fallback
text otherwise — so the error field is always a non-empty string. -/
theorem c10_thrown_error_normalization (m : String) (sid e_ : Option String) :
    (action m sid (ServiceOutcome.thrown e_)).answer = some "" ∧
    (action m sid (ServiceOutcome.thrown e_)).message = some m ∧
    (∀ s, e_ = some s → s ≠ "" →
      (action m sid (ServiceOutcome.thrown e_)).error = some s) ∧
    ((e_ = none ∨ e_ = some "") →
      (action m sid (ServiceOutcome.thrown e_)).error =
        some "Something went wrong! Please try again.") ∧
    (∃ s, (action m sid (ServiceOutcome.thrown e_)).error = some s ∧ s ≠ "") := by
  refine ⟨rfl, rfl, ?_, ?_, ?_⟩
  · intro s hs hne
    subst hs
    simp [action, hne]
  · intro hs
    rcases hs with hs | hs <;> subst hs <;> rfl
  · cases e_ with
    | none => exact ⟨"Something went wrong! Please try again.", rfl, by decide⟩
    | some s =>
      by_cases hne : s = ""
      · subst hne
        exact ⟨"Something went wrong! Please try again.", rfl, by decide⟩
      · exact ⟨s, by simp [action, hne], hne⟩

/-- Claim C10 witness: a thrown error with message `"boom"` is surfaced
verbatim in the error field. -/
theorem c10_thrown_error_normalization_witness :
    (action "hi" none (ServiceOutcome.thrown (some "boom"))).error = some "boom" :=
  (c10_thrown_error_normalization "hi" none (some "boom")).2.2.1 "boom" rfl (by decide)
